import Mathlib

/-!
Shallow embedding of the moderation and engagement bot in
`src/bot.py` / `src/config.py` (repository codewithnafira/bot.py),
restricted to the parts the verified claims are about: the `/warn`
command handler `warn_user` (bot.py lines 300-314), the `users` table it
writes (created by `init_db`, bot.py lines 51-59), the configuration
constant `Config.MAX_WARNINGS` (config.py line 14), and the video-chat
request handler `request_video_chat` (bot.py lines 270-293).
-/

/-- Mirrors `Config.MAX_WARNINGS = 3` from src/config.py line 14. -/
def MAX_WARNINGS : Nat := 3

/-- One row of the `users` table created by `init_db` (src/bot.py 51-59):
`user_id INTEGER PRIMARY KEY, username TEXT, first_name TEXT, last_name TEXT,
join_date TEXT, warnings INTEGER DEFAULT 0`.  The key `user_id` is kept next
to the row in the table below.  There is no group/chat column. -/
structure UserRow where
  username : String
  first_name : String
  last_name : String
  join_date : String
  warnings : Nat
deriving DecidableEq, Repr

/-- The `users` table: rows keyed by `user_id`.  `user_id` is the PRIMARY KEY,
so reachable tables have pairwise distinct keys (the proofs below do not need
that assumption). -/
abbrev UsersTable := List (Nat × UserRow)

/-- Mirrors `SELECT warnings FROM users WHERE user_id = uid`: the persisted
warning count of a user, `none` when the user has no row. -/
def getWarnings (uid : Nat) (db : UsersTable) : Option Nat :=
  match db.find? (fun p => p.1 == uid) with
  | some p => some p.2.warnings
  | none => none

/-- Mirrors `UPDATE users SET warnings = warnings + 1 WHERE user_id = uid`
(src/bot.py 308-310): every row whose key matches is incremented; when no
row matches the statement is a silent no-op. -/
def incrementWarnings (uid : Nat) (db : UsersTable) : UsersTable :=
  db.map (fun p =>
    if p.1 = uid then (p.1, { p.2 with warnings := p.2.warnings + 1 }) else p)

/-- The persisted warning count the store holds for a `(group, user)` pair.
The `users` table (src/bot.py 51-59) has no group column and `warn_user`
never reads `chat_id`, so every group observes the single per-user cell. -/
def pairCount (_g uid : Nat) (db : UsersTable) : Option Nat :=
  getWarnings uid db

/-- Moderation Action Gateway operations the bot could issue through the
platform API (ban / restrict / kick a chat member).  `warn_user` issues
none of them. -/
inductive GatewayCall where
  | Ban : Nat → Nat → String → GatewayCall
  | Mute : Nat → Nat → GatewayCall
  | Kick : Nat → Nat → GatewayCall
deriving DecidableEq, Repr

/-- The author of the replied-to message
(`update.message.reply_to_message.from_user`): id and first name are the
only fields `warn_user` reads. -/
structure ReplyUser where
  id : Nat
  first_name : String
deriving DecidableEq, Repr

/-- The slice of a telegram `Update` that reaches `warn_user`: the chat id,
the issuing admin (`update.effective_user.id`, present on every update but
never read by `warn_user`), and the replied-to author when the message is a
reply. -/
structure Message where
  chat_id : Nat
  from_user : Nat
  reply_to_message : Option ReplyUser
deriving DecidableEq, Repr

/-- The sqlite store as `warn_user` sees it: the `users` table plus a flag
recording whether `get_db()` / `cursor.execute` succeed.  When the database
is unavailable they raise before anything is written. -/
structure Store where
  available : Bool
  users : UsersTable
deriving DecidableEq, Repr

/-- A failure of the counter store (an sqlite exception escaping the
handler before the commit). -/
inductive DbError where
  | storageUnavailable
deriving DecidableEq, Repr

/-- Reply sent when `/warn` is not a reply (src/bot.py 302). -/
def warnNoReplyMsg : String := "❌ Reply to a user's message to warn them."

/-- Reply sent after the counter update (src/bot.py 314). -/
def warnedMsg (name : String) : String := "⚠️ " ++ name ++ " has been warned!"

/-- Mirrors `warn_user` (src/bot.py 300-314).  If the message is not a reply,
the error text is sent and the store is never touched.  Otherwise the
handler opens the store, runs the per-user increment, commits, and sends the
warned reply; if the store is unavailable the exception aborts the handler
before any write and before any reply.  The result is the new store state
together with either the storage error or the sent reply text and the list
of gateway calls issued (`warn_user` performs no gateway call). -/
def warn_user (msg : Message) (st : Store) :
    Store × Except DbError (String × List GatewayCall) :=
  match msg.reply_to_message with
  | none => (st, Except.ok (warnNoReplyMsg, []))
  | some u =>
      if st.available then
        ({ st with users := incrementWarnings u.id st.users },
         Except.ok (warnedMsg u.first_name, []))
      else
        (st, Except.error DbError.storageUnavailable)

/-- The store state after `n` successive `warn_user` calls on the same
message (each call's reply and gateway calls are given by `warn_user`). -/
def warnStoreIter (msg : Message) : Nat → Store → Store
  | 0, st => st
  | n + 1, st => (warn_user msg (warnStoreIter msg n st)).1

/-- Reply for a duplicate video-chat request (src/bot.py 277). -/
def alreadyRequestedMsg : String := "❌ You have already requested a video chat."

/-- Reply acknowledging a video-chat request (src/bot.py 284-287). -/
def videoRequestedMsg (name : String) (count : Nat) : String :=
  "📹 Video chat requested by " ++ name ++ ".\nCurrent requests: "
    ++ toString count ++ "/5"

/-- Reply sent by `start_video_chat` (src/bot.py 295-297). -/
def startVideoMsg : String := "🎥 Starting video chat now!"

/-- The requesting user (`update.effective_user`): id and first name are the
only fields `request_video_chat` reads. -/
structure VCUser where
  id : Nat
  first_name : String
deriving DecidableEq, Repr

/-- Mirrors `request_video_chat` (src/bot.py 270-293).  The per-chat state
`context.chat_data["video_chat_requests"]` starts absent (`none`) and is
initialised to the empty set on first use.  A duplicate requester gets the
rejection reply and the set is unchanged; otherwise the user is added, the
acknowledgement is sent, and when the size reaches 5 the video chat is
started and the set is reset to empty.  The result is the new request set
(the key is always present after the call) and the replies sent, in order. -/
def request_video_chat (user : VCUser) (cd : Option (Finset Nat)) :
    Finset Nat × List String :=
  let s := cd.getD ∅
  if user.id ∈ s then
    (s, [alreadyRequestedMsg])
  else
    let s2 := insert user.id s
    let c := s2.card
    if 5 ≤ c then
      (∅, [videoRequestedMsg user.first_name c, startVideoMsg])
    else
      (s2, [videoRequestedMsg user.first_name c])

/-- Incrementing a user's warnings bumps that user's persisted count by one
(and leaves an absent row absent). -/
theorem getWarnings_increment_self (uid : Nat) (db : UsersTable) :
    getWarnings uid (incrementWarnings uid db)
      = Option.map (· + 1) (getWarnings uid db) := by
  induction db with
  | nil => rfl
  | cons p t ih =>
    by_cases h : p.1 = uid
    · simp [getWarnings, incrementWarnings, List.find?, h]
    · have hb : (p.1 == uid) = false := by
        simpa using h
      simp only [incrementWarnings, List.map_cons, if_neg h] at *
      simp only [getWarnings, List.find?, hb] at *
      exact ih

/-- Frame property of the per-user increment: any other user's persisted
count is unchanged. -/
theorem getWarnings_increment_other (uid v : Nat) (db : UsersTable)
    (hv : v ≠ uid) :
    getWarnings v (incrementWarnings uid db) = getWarnings v db := by
  induction db with
  | nil => rfl
  | cons p t ih =>
    by_cases h : p.1 = uid
    · have hkv : (p.1 == v) = false := by
        apply beq_eq_false_iff_ne.2
        rw [h]
        exact fun e => hv e.symm
      have hstep : incrementWarnings uid (p :: t)
          = (p.1, { p.2 with warnings := p.2.warnings + 1 })
              :: incrementWarnings uid t := by
        simp [incrementWarnings, if_pos h]
      rw [hstep]
      simp only [getWarnings, List.find?, hkv]
      exact ih
    · have hstep : incrementWarnings uid (p :: t)
          = p :: incrementWarnings uid t := by
        simp [incrementWarnings, if_neg h]
      rw [hstep]
      cases hkv : (p.1 == v) with
      | true => simp [getWarnings, List.find?, hkv]
      | false =>
        simp only [getWarnings, List.find?, hkv]
        exact ih

/-- When the target user has no row, the UPDATE matches zero rows and the
table is unchanged. -/
theorem incrementWarnings_not_found (uid : Nat) (db : UsersTable)
    (h : db.find? (fun p => p.1 == uid) = none) :
    incrementWarnings uid db = db := by
  induction db with
  | nil => rfl
  | cons p t ih =>
    cases hb : (p.1 == uid) with
    | true =>
      exfalso
      simp [List.find?, hb] at h
    | false =>
      have ht : t.find? (fun p => p.1 == uid) = none := by
        simpa [List.find?, hb] using h
      have hp : ¬ p.1 = uid := by simpa using hb
      have hstep : incrementWarnings uid (p :: t)
          = p :: incrementWarnings uid t := by
        simp [incrementWarnings, if_neg hp]
      rw [hstep, ih ht]

/-- The per-user increment never inserts or deletes rows: the key column of
the table is untouched. -/
theorem incrementWarnings_keys (uid : Nat) (db : UsersTable) :
    (incrementWarnings uid db).map Prod.fst = db.map Prod.fst := by
  induction db with
  | nil => rfl
  | cons p t ih =>
    by_cases h : p.1 = uid <;> simp [incrementWarnings, h] at ih ⊢ <;> exact ih

/-- `warn_user` never flips the availability flag of the store. -/
theorem warn_user_available (msg : Message) (st : Store) :
    (warn_user msg st).1.available = st.available := by
  unfold warn_user
  cases msg.reply_to_message with
  | none => rfl
  | some u =>
    by_cases h : st.available = true <;> simp [h]

/-- Iterated warns never flip the availability flag either. -/
theorem warnStoreIter_available (msg : Message) (n : Nat) (st : Store) :
    (warnStoreIter msg n st).available = st.available := by
  induction n with
  | zero => rfl
  | succ n ih => rw [warnStoreIter, warn_user_available, ih]

/-- Concrete scenario shared by the escalation claims: user 7 ("Bob") with
an existing `users` row holding zero warnings. -/
def rowBob : UserRow :=
  { username := "bob", first_name := "Bob", last_name := "B"
    join_date := "2024-01-01", warnings := 0 }

/-- Store with exactly Bob's row, storage available. -/
def stBob : Store := { available := true, users := [(7, rowBob)] }

/-- A `/warn` message in chat 1, issued by admin 100, replying to Bob. -/
def msgBob : Message :=
  { chat_id := 1, from_user := 100, reply_to_message := some ⟨7, "Bob"⟩ }

/-- Same reply target as `msgBob` but issued by a different admin (200). -/
def msgIssuerB : Message :=
  { chat_id := 1, from_user := 200, reply_to_message := some ⟨7, "Bob"⟩ }

/-- A `/warn` message that is not a reply. -/
def msgNoReply : Message :=
  { chat_id := 1, from_user := 100, reply_to_message := none }

/-- Bob's store with the database unavailable. -/
def stDown : Store := { available := false, users := [(7, rowBob)] }

/-- A `/warn` reply targeting user 9 ("Eve"), who has no `users` row. -/
def msgEve : Message :=
  { chat_id := 1, from_user := 100, reply_to_message := some ⟨9, "Eve"⟩ }

/-- A store with an empty `users` table, storage available. -/
def stEve : Store := { available := true, users := [] }

/-- C1: the MAX_WARNINGS-th (third) warn call on a pair that started from a
zero count returns the ordinary warned reply with an empty list of gateway
calls and a persisted count of 3: `warn_user` (src/bot.py 300-314) never
consults `Config.MAX_WARNINGS`, never produces an `Escalated` outcome, and
never invokes `Ban`, contradicting the spec and the threshold declared in
src/config.py. -/
theorem warn_third_call_no_ban :
    warn_user msgBob (warnStoreIter msgBob (MAX_WARNINGS - 1) stBob)
      = ({ available := true,
           users := [(7, { rowBob with warnings := MAX_WARNINGS })] },
         Except.ok (warnedMsg "Bob", [])) := rfl

/-- C3: after the threshold-crossing third warn the persisted count is 3 and
the third call's outcome is the plain warned reply: no warn call ever
returns an `Escalated` outcome and the counter is never reset to 0,
contradicting the spec's reset-on-escalation behaviour. -/
theorem warn_count_never_reset :
    getWarnings 7 (warnStoreIter msgBob MAX_WARNINGS stBob).users = some 3 ∧
    (warn_user msgBob (warnStoreIter msgBob 2 stBob)).2
      = Except.ok (warnedMsg "Bob", []) := ⟨rfl, rfl⟩

/-- C2 counterexample: a single warning (N = 1 < MAX_WARNINGS) issued to a
pair whose user has no `users` row reports success, yet the persisted count
is still absent rather than 1, refuting "each warn call returns Warned with
count equal to the number of warnings issued so far". -/
theorem warn_first_count_not_one :
    1 < MAX_WARNINGS ∧
    (warn_user msgEve stEve).2 = Except.ok (warnedMsg "Eve", []) ∧
    getWarnings 9 (warn_user msgEve stEve).1.users = none :=
  ⟨by decide, rfl, rfl⟩

/-- C2 amended: when the target user has a `users` row holding count `w` and
the store is available, after `n` single warns the persisted count is
`w + n`, and every call in the sequence returns the warned reply with no
gateway call. -/
theorem warn_sequence_counts (msg : Message) (u : ReplyUser) (st : Store)
    (w : Nat) (hr : msg.reply_to_message = some u) (ha : st.available = true)
    (hw : getWarnings u.id st.users = some w) (n : Nat) :
    getWarnings u.id (warnStoreIter msg n st).users = some (w + n) ∧
    (warn_user msg (warnStoreIter msg n st)).2
      = Except.ok (warnedMsg u.first_name, []) := by
  have hav : ∀ k, (warnStoreIter msg k st).available = true := by
    intro k
    rw [warnStoreIter_available, ha]
  have hcount :
      ∀ k, getWarnings u.id (warnStoreIter msg k st).users = some (w + k) := by
    intro k
    induction k with
    | zero => simpa using hw
    | succ k ih =>
      have hstep : warnStoreIter msg (k + 1) st
          = (warn_user msg (warnStoreIter msg k st)).1 := rfl
      have husers : (warn_user msg (warnStoreIter msg k st)).1.users
          = incrementWarnings u.id (warnStoreIter msg k st).users := by
        simp [warn_user, hr, hav k]
      rw [hstep, husers, getWarnings_increment_self, ih]
      rfl
  refine ⟨hcount n, ?_⟩
  simp [warn_user, hr, hav n]

/-- Witness for the amended C2 at a concrete input: two warns on Bob's pair
starting from count 0. -/
theorem warn_sequence_counts_witness :
    getWarnings 7 (warnStoreIter msgBob 2 stBob).users = some (0 + 2) ∧
    (warn_user msgBob (warnStoreIter msgBob 2 stBob)).2
      = Except.ok (warnedMsg "Bob", []) :=
  warn_sequence_counts msgBob ⟨7, "Bob"⟩ stBob 0 rfl rfl rfl 2

/-- C6: when the counter store is unavailable, a warn call on a reply fails
with the storage error, the store state (and hence every count) is
unchanged, nothing is committed, and no gateway call is issued. -/
theorem warn_storage_unavailable_no_effect (msg : Message) (u : ReplyUser)
    (st : Store) (hr : msg.reply_to_message = some u)
    (ha : st.available = false) :
    warn_user msg st = (st, Except.error DbError.storageUnavailable) := by
  simp [warn_user, hr, ha]

/-- Witness for C6 at a concrete input: warning Bob while the store is down. -/
theorem warn_storage_unavailable_witness :
    warn_user msgBob stDown
      = (stDown, Except.error DbError.storageUnavailable) :=
  warn_storage_unavailable_no_effect msgBob ⟨7, "Bob"⟩ stDown rfl rfl

/-- C7: a `/warn` command that is not a reply is rejected with the error
reply; the store is returned untouched (no count read or modified, nothing
created) and no gateway call is issued. -/
theorem warn_no_reply_rejected (msg : Message) (st : Store)
    (hr : msg.reply_to_message = none) :
    warn_user msg st = (st, Except.ok (warnNoReplyMsg, [])) := by
  simp [warn_user, hr]

/-- Witness for C7 at a concrete input. -/
theorem warn_no_reply_rejected_witness :
    warn_user msgNoReply stBob = (stBob, Except.ok (warnNoReplyMsg, [])) :=
  warn_no_reply_rejected msgNoReply stBob rfl

/-- C9: a warn targeting a user with no `users` row leaves the store exactly
as it was (the UPDATE matches zero rows; no count is created or incremented
anywhere) while the bot still reports the user as warned; moreover no warn
call ever inserts or deletes a `users` row (the key column is preserved). -/
theorem warn_missing_user_silent_noop (msg : Message) (u : ReplyUser)
    (st : Store) (hr : msg.reply_to_message = some u)
    (ha : st.available = true)
    (hn : st.users.find? (fun p => p.1 == u.id) = none) :
    warn_user msg st = (st, Except.ok (warnedMsg u.first_name, [])) ∧
    ∀ m s, ((warn_user m s).1.users.map Prod.fst = s.users.map Prod.fst) := by
  constructor
  · have hfix : incrementWarnings u.id st.users = st.users :=
      incrementWarnings_not_found u.id st.users hn
    rcases st with ⟨av, us⟩
    simp only at ha hfix
    subst ha
    simp [warn_user, hr, hfix]
  · intro m s
    unfold warn_user
    cases hm : m.reply_to_message with
    | none => rfl
    | some v =>
      by_cases h : s.available = true
      · simp [h, incrementWarnings_keys]
      · simp [h]

/-- Witness for C9 at a concrete input: warning Eve, who has no row. -/
theorem warn_missing_user_silent_noop_witness :
    warn_user msgEve stEve = (stEve, Except.ok (warnedMsg "Eve", [])) ∧
    ∀ m s, ((warn_user m s).1.users.map Prod.fst = s.users.map Prod.fst) :=
  warn_missing_user_silent_noop msgEve ⟨9, "Eve"⟩ stEve rfl rfl rfl

/-- C4 counterexample: warning Bob (user 7) through a message in chat 1
changes the persisted count the store holds for the distinct pair
(group 2, user 7) from 0 to 1 — the `users` table has no group column, so
the same user's count is shared across groups, refuting the per-pair
scoping as stated. -/
theorem warn_chat1_changes_pair_chat2 :
    msgBob.chat_id = 1 ∧
    pairCount 2 7 stBob.users = some 0 ∧
    pairCount 2 7 (warn_user msgBob stBob).1.users = some 1 :=
  ⟨rfl, rfl, rfl⟩

/-- C4 amended: warning counts are scoped per `user_id` only: a warn call
leaves every other user's count unchanged (in any group), and the result of
the call is entirely independent of the chat the command was issued in. -/
theorem warn_scoped_per_user (msg : Message) (u : ReplyUser) (st : Store)
    (v : Nat) (hr : msg.reply_to_message = some u) (hv : v ≠ u.id) :
    getWarnings v (warn_user msg st).1.users = getWarnings v st.users ∧
    ∀ g, warn_user { msg with chat_id := g } st = warn_user msg st := by
  constructor
  · by_cases h : st.available = true
    · have husers : (warn_user msg st).1.users
          = incrementWarnings u.id st.users := by
        simp [warn_user, hr, h]
      rw [husers]
      exact getWarnings_increment_other u.id v st.users hv
    · simp [warn_user, hr, h]
  · intro g
    rfl

/-- Witness for the amended C4 at a concrete input: warning Bob leaves
user 8's (absent) count unchanged, in any chat. -/
theorem warn_scoped_per_user_witness :
    getWarnings 8 (warn_user msgBob stBob).1.users
      = getWarnings 8 stBob.users ∧
    ∀ g, warn_user { msgBob with chat_id := g } stBob
      = warn_user msgBob stBob :=
  warn_scoped_per_user msgBob ⟨7, "Bob"⟩ stBob 8 rfl (by decide)

/-- C5 counterexample: the complete store state produced by a warn is
independent of the issuing admin and consists of the bare incremented
counter cell alone — no persisted datum carries `issuer_id`, `reason`,
`timestamp` or `group_id`, and the sentinel "no reason provided" is stored
nowhere, refuting the claimed persisted WarningRecord. -/
theorem warn_persists_no_issuer_record :
    msgBob.from_user ≠ msgIssuerB.from_user ∧
    warn_user msgBob stBob = warn_user msgIssuerB stBob ∧
    (warn_user msgBob stBob).1.users = [(7, { rowBob with warnings := 1 })] :=
  ⟨by decide, rfl, rfl⟩

/-- C5 amended: a warn call on a reply, with the store available, changes
the persisted state only by the per-user counter increment and sends the
warned reply with no gateway call; nothing else is persisted. -/
theorem warn_persists_only_counter (msg : Message) (u : ReplyUser)
    (st : Store) (hr : msg.reply_to_message = some u)
    (ha : st.available = true) :
    warn_user msg st
      = ({ st with users := incrementWarnings u.id st.users },
         Except.ok (warnedMsg u.first_name, [])) := by
  simp [warn_user, hr, ha]

/-- Witness for the amended C5 at a concrete input. -/
theorem warn_persists_only_counter_witness :
    warn_user msgBob stBob
      = ({ stBob with users := incrementWarnings 7 stBob.users },
         Except.ok (warnedMsg "Bob", [])) :=
  warn_persists_only_counter msgBob ⟨7, "Bob"⟩ stBob rfl rfl

/-- C10: assuming the per-chat request set (when present) has fewer than 5
members — which holds in every reachable state — a single
`request_video_chat` call leaves a set of fewer than 5 members; a duplicate
requester leaves the set unchanged with the rejection reply; and a new
request that makes the size reach 5 starts the video chat and resets the
set to empty. -/
theorem video_chat_requests_bounded (user : VCUser)
    (cd : Option (Finset Nat)) (hinv : ∀ s, cd = some s → s.card < 5) :
    (request_video_chat user cd).1.card < 5 ∧
    (∀ s, cd = some s → user.id ∈ s →
      request_video_chat user cd = (s, [alreadyRequestedMsg])) ∧
    (∀ s, cd = some s → user.id ∉ s → (insert user.id s).card = 5 →
      request_video_chat user cd
        = (∅, [videoRequestedMsg user.first_name 5, startVideoMsg])) := by
  cases cd with
  | none =>
    refine ⟨?_, ?_, ?_⟩
    · simp [request_video_chat]
    · intro s h
      exact absurd h (by simp)
    · intro s h
      exact absurd h (by simp)
  | some s =>
    have hs : s.card < 5 := hinv s rfl
    by_cases hm : user.id ∈ s
    · refine ⟨?_, ?_, ?_⟩
      · simpa [request_video_chat, hm] using hs
      · intro s2 h2 hmem
        injection h2 with he
        subst he
        simp [request_video_chat, hm]
      · intro s2 h2 hnot hc
        injection h2 with he
        subst he
        exact absurd hm hnot
    · have hcard : (insert user.id s).card = s.card + 1 :=
        Finset.card_insert_of_not_mem hm
      by_cases h5 : 5 ≤ (insert user.id s).card
      · have hc5 : (insert user.id s).card = 5 := by omega
        refine ⟨?_, ?_, ?_⟩
        · have h4 : 4 ≤ s.card := by omega
          have hres : (request_video_chat user (some s)).1 = ∅ := by
            simp [request_video_chat, hm, h4]
          rw [hres]
          decide
        · intro s2 h2 hmem
          injection h2 with he
          subst he
          exact absurd hmem hm
        · intro s2 h2 hnot hc
          injection h2 with he
          subst he
          simp [request_video_chat, hm, h5, hc5]
      · refine ⟨?_, ?_, ?_⟩
        · have h4n : ¬ 4 ≤ s.card := by omega
          have hres : (request_video_chat user (some s)).1
              = insert user.id s := by
            simp [request_video_chat, hm, h4n]
          rw [hres]
          omega
        · intro s2 h2 hmem
          injection h2 with he
          subst he
          exact absurd hmem hm
        · intro s2 h2 hnot hc
          injection h2 with he
          subst he
          omega

/-- Witness for C10 at a concrete input: the fifth distinct requester
starts the video chat and resets the set. -/
theorem video_chat_requests_bounded_witness :
    (request_video_chat ⟨5, "Eli"⟩ (some {1, 2, 3, 4})).1.card < 5 ∧
    (∀ s, some ({1, 2, 3, 4} : Finset Nat) = some s → (5 : Nat) ∈ s →
      request_video_chat ⟨5, "Eli"⟩ (some {1, 2, 3, 4})
        = (s, [alreadyRequestedMsg])) ∧
    (∀ s, some ({1, 2, 3, 4} : Finset Nat) = some s → (5 : Nat) ∉ s →
      (insert 5 s).card = 5 →
      request_video_chat ⟨5, "Eli"⟩ (some {1, 2, 3, 4})
        = (∅, [videoRequestedMsg "Eli" 5, startVideoMsg])) :=
  video_chat_requests_bounded ⟨5, "Eli"⟩ (some {1, 2, 3, 4})
    (fun s h => by
      injection h with he
      subst he
      decide)
